import Mathlib

/-!
Verification of the distributed transformer orchestration module
(`max/nn/transformer/distributed_transformer.py`).

Shallow embedding conventions:
* A per-device "sharded" tensor is a `List` with one entry per device, kept in
  device-index order (matching the Python convention of one value per device).
* A per-device hidden-state tensor is a `List R` of token rows, where the row
  type `R` is abstract: gathers along axis 0 select rows of the list.
* External collaborators (attention, norms, the MLP shards, the allreduce
  primitives, the language-model head, embedding, cast) are opaque capability
  functions carried as fields, exactly as the Python module receives them as
  constructor arguments or imported black boxes.
* Fallible Python code (raises, asserts, attribute errors) is modelled with
  `Except String`.
-/

/-- Opaque device handle (`DeviceRef` in the source); only its identity and the
order of the device list matter to the orchestrator. -/
abbrev DeviceRef := Nat

/-- Modelled from the spec: the `ReturnLogits` enum imported from
`transformer.py` (not under `src/`) with the three modes named by the spec. -/
inductive ReturnLogits where
  | LAST_TOKEN
  | ALL
  | VARIABLE
deriving DecidableEq

/-- Modelled from the spec: `DistributedGemmConfig` from `max.nn.linear` (not
under `src/`); the orchestrator only reads its `enable_matmul_allreduce` flag. -/
structure DistributedGemmConfig where
  enable_matmul_allreduce : Bool
deriving DecidableEq

/-- One tensor-parallel shard of the MLP sub-layer: an opaque per-device
function, plus the (possibly unavailable) final projection weight that the
fused matmul+allreduce path extracts as `layer.down_proj.weight`.
`down_proj_weight = none` models a shard object without a retrievable
`down_proj` attribute (Python would raise `AttributeError` on access). -/
structure MLPShard (R W : Type) where
  apply : List R → List R
  down_proj_weight : Option W

/-- A `Shardable` MLP module: `shard n` is the list of per-device shards
produced for `n` devices after `sharding_strategy` has been set to
`tensor_parallel(n)` (the sharding implementation itself lives in
`max.nn.linear`, outside `src/`, and is carried here as a capability). -/
structure ShardableMLP (R W : Type) where
  shard : Nat → List (MLPShard R W)

/-- Elementwise tensor addition (`x + attn_out` on per-device tensors): rows
are added pointwise; the row type carries the addition. -/
def tensorAdd [Add R] (a b : List R) : List R :=
  List.zipWith (fun x y => x + y) a b

/-- The default shard used to total `List.getD` indexing; indices are always
in range when it is used by the embedding. -/
def default_shard {R W : Type} : MLPShard R W :=
  { apply := fun x => x, down_proj_weight := none }

/-- `DistributedTransformerBlock`: stack of attention, feed-forward and
RMSNorm layers, with the opaque capabilities it was constructed from. -/
structure DistributedTransformerBlock (R B K W : Type) where
  self_attn : Nat → List (List R) → List B → List K → List (List Int) → List (List R)
  mlp_shards : List (MLPShard R W)
  input_layernorm : List (List R) → List (List R)
  post_attention_layernorm : List (List R) → List (List R)
  devices : List DeviceRef
  distributed_gemm_config : Option DistributedGemmConfig
  allreduce : List (List R) → List B → List (List R)
  matmul_allreduce : List (List R) → List W → List B → List (List R)

/-- `DistributedTransformerBlock.__init__`: shards the MLP across the devices
(tensor-parallel with factor `len(devices)`) and stores the remaining
capabilities.  The source performs no validation here — in particular it never
touches `down_proj` — so construction is total. `allreduceOp` models the
`Allreduce(num_accelerators=len(devices))` primitive and `matmulAllreduceOp`
the imported `matmul_allreduce`, both external black boxes. -/
def DistributedTransformerBlock.init {R B K W : Type}
    (attention : Nat → List (List R) → List B → List K → List (List Int) → List (List R))
    (mlp : ShardableMLP R W)
    (attention_norm : List (List R) → List (List R))
    (mlp_norm : List (List R) → List (List R))
    (devices : List DeviceRef)
    (distributed_gemm_config : Option DistributedGemmConfig)
    (allreduceOp : List (List R) → List B → List (List R))
    (matmulAllreduceOp : List (List R) → List W → List B → List (List R)) :
    DistributedTransformerBlock R B K W :=
  { self_attn := attention
    mlp_shards := mlp.shard devices.length
    input_layernorm := attention_norm
    post_attention_layernorm := mlp_norm
    devices := devices
    distributed_gemm_config := distributed_gemm_config
    allreduce := allreduceOp
    matmul_allreduce := matmulAllreduceOp }

/-- Sequential effectful map over a list (Python list comprehensions and
loops that may raise): stops at the first error. -/
def mapME {α β ε : Type} (f : α → Except ε β) : List α → Except ε (List β)
  | [] => Except.ok []
  | a :: l => (f a).bind (fun b => (mapME f l).bind (fun bs => Except.ok (b :: bs)))

/-- The collective-reduction step of the block: plain allreduce when no
distributed-GEMM config is present or `enable_matmul_allreduce` is off;
otherwise the fused path first extracts `layer.down_proj.weight` from every
MLP shard (an `AttributeError` at call time when a shard has none) and calls
the fused `matmul_allreduce`. -/
def DistributedTransformerBlock.reduce_mlp_outs {R B K W : Type}
    (blk : DistributedTransformerBlock R B K W)
    (mlp_outs : List (List R)) (signal_buffers : List B) :
    Except String (List (List R)) :=
  match blk.distributed_gemm_config with
  | none => Except.ok (blk.allreduce mlp_outs signal_buffers)
  | some cfg =>
    if cfg.enable_matmul_allreduce then
      (mapME (fun (s : MLPShard R W) =>
        match s.down_proj_weight with
        | some w => Except.ok w
        | none => Except.error "AttributeError: object has no attribute down_proj")
        blk.mlp_shards).bind
      (fun weights => Except.ok (blk.matmul_allreduce mlp_outs weights signal_buffers))
    else Except.ok (blk.allreduce mlp_outs signal_buffers)

/-- `DistributedTransformerBlock.__call__`: pre-attention norm, self-attention,
residual add, post-attention norm, per-device sharded MLP, collective
reduction, residual add.  The MLP comprehension indexes `norm_outs[i]` for
every shard index `i`, so it raises `IndexError` — before the reduction step
and before the fused path's weight extraction — when the normed list is
shorter than the shard list. -/
def DistributedTransformerBlock.call {R B K W : Type} [Add R]
    (blk : DistributedTransformerBlock R B K W)
    (layer_idx : Nat) (xs : List (List R)) (signal_buffers : List B)
    (kv_collections : List K) (input_row_offsets : List (List Int)) :
    Except String (List (List R)) :=
  let attn_outs := blk.self_attn layer_idx (blk.input_layernorm xs)
    signal_buffers kv_collections input_row_offsets
  let hs := List.zipWith tensorAdd xs attn_outs
  let norm_outs := blk.post_attention_layernorm hs
  (mapME (fun i =>
      if i < norm_outs.length then
        Except.ok ((blk.mlp_shards.getD i default_shard).apply
          (norm_outs.getD i []))
      else Except.error "IndexError: list index out of range")
    (List.range blk.mlp_shards.length)).bind
  (fun mlp_outs =>
    (blk.reduce_mlp_outs mlp_outs signal_buffers).bind
      (fun mlp_outs2 => Except.ok (List.zipWith tensorAdd hs mlp_outs2)))

/-- An entry of the `layers` list.  The Python signature annotates
`list[DistributedTransformerBlock]` but nothing enforces it before the
`isinstance` assert inside `__call__`; `other` models a callable module that
is not a `DistributedTransformerBlock`. -/
inductive Layer (R B K W : Type) where
  | block (b : DistributedTransformerBlock R B K W)
  | other (f : Nat → List (List R) → List B → List K → List (List Int) → List (List R))

instance {R B K W : Type} : Inhabited (Layer R B K W) :=
  ⟨Layer.other (fun _ h _ _ _ => h)⟩

/-- Calling one entry of the layer stack (Python calls `layer(...)`
regardless of its concrete type). -/
def Layer.call {R B K W : Type} [Add R] :
    Layer R B K W → Nat → List (List R) → List B → List K → List (List Int) →
    Except String (List (List R))
  | Layer.block b, idx, h, sb, kv, iro => b.call idx h sb kv iro
  | Layer.other f, idx, h, sb, kv, iro => Except.ok (f idx h sb kv iro)

/-- `distribute_value`: one copy of the value per device, in device order
(the per-device `v.to(device)` transfers do not change the value). -/
def distribute_value {α : Type} (v : α) (devices : List DeviceRef) : List α :=
  devices.map (fun _ => v)

/-- `last_token_indices = input_row_offsets[1:] - 1`: tail of the row-offsets
tensor, elementwise minus one. -/
def lastTokenIndices (offsets : List Int) : List Int :=
  (offsets.drop 1).map (fun o => o - 1)

/-- `ops.gather(t, indices, axis=0)` on a tensor viewed as its list of axis-0
rows: row `indices[j]` of `t` in position `j`.  Behaviour on out-of-range or
negative indices is unspecified by the graph library; the embedding totalises
those cases with a default row. -/
def gatherAxis0 {ρ : Type} [Inhabited ρ] (t : List ρ) (indices : List Int) : List ρ :=
  indices.map (fun i => t.getD i.toNat default)

/-- Helper for `rangeInt`: emits values while they are on the correct side of
`stop` for the sign of `step`; the fuel bounds the number of emitted values. -/
def rangeIntAux (fuel : Nat) (cur stop step : Int) : List Int :=
  match fuel with
  | 0 => []
  | Nat.succ fuel2 =>
    if (0 < step ∧ cur < stop) ∨ (step < 0 ∧ stop < cur) then
      cur :: rangeIntAux fuel2 (cur + step) stop step
    else []

/-- Modelled from the spec: `ops.range(start, stop, step)` from the graph
library (not under `src/`), the half-open arithmetic range used only by the
dead `VARIABLE` extraction branch. -/
def rangeInt (start stop step : Int) : List Int :=
  rangeIntAux (stop - start).natAbs start stop step

/-- The output tuple of a forward call: `(last_logits,)` or
`(last_logits, logits, offsets)`. -/
inductive CallResult (R : Type) where
  | one (last_logits : List R)
  | three (last_logits : List R) (logits : List R) (offsets : List Int)

/-- First element of the returned tuple. -/
def CallResult.first {R : Type} : CallResult R → List R
  | CallResult.one l => l
  | CallResult.three l _ _ => l

/-- `DistributedTransformer`: transformer model consisting of
`DistributedTransformerBlock` layers plus the capabilities it stores at
construction (final norm, output projection `lm_head`, token embedding,
cache-collection constructor). -/
structure DistributedTransformer (R B K KIn T P W : Type) where
  dim : Nat
  n_heads : Nat
  layers : List (Layer R B K W)
  norm : List (List R) → List (List R)
  lm_head : List (List R) → List B → List (List R)
  embed_tokens : T → List B → List (List R)
  kv_params : P
  kv_collection_constructor : KIn → K
  return_logits : ReturnLogits
  devices : List DeviceRef
  use_subgraphs : Bool
  subgraph_layer_groups : List (List Nat)

/-- `DistributedTransformer.__init__`: stores the configuration, defaults the
subgraph layer groups to a single group holding every layer index, and raises
`ValueError` when the `VARIABLE` return mode is requested. -/
def DistributedTransformer.init {R B K KIn T P W : Type}
    (dim n_heads : Nat) (layers : List (Layer R B K W))
    (norm : List (List R) → List (List R))
    (output : List (List R) → List B → List (List R))
    (embedding : T → List B → List (List R))
    (kv_params : P) (kv_collection_constructor : KIn → K)
    (devices : List DeviceRef) (return_logits : ReturnLogits)
    (use_subgraphs : Bool) (subgraph_layer_groups : Option (List (List Nat))) :
    Except String (DistributedTransformer R B K KIn T P W) :=
  let groups :=
    match subgraph_layer_groups with
    | none => [List.range layers.length]
    | some gs => gs
  if return_logits = ReturnLogits.VARIABLE then
    Except.error "DistributedTransformer does not support variable logits."
  else
    Except.ok
      { dim := dim
        n_heads := n_heads
        layers := layers
        norm := norm
        lm_head := output
        embed_tokens := embedding
        kv_params := kv_params
        kv_collection_constructor := kv_collection_constructor
        return_logits := return_logits
        devices := devices
        use_subgraphs := use_subgraphs
        subgraph_layer_groups := groups }

/-- The per-group work done while building subgraphs in `__call__`: assert the
group is non-empty, look up its template layer `layers[group[0]]` (an
`IndexError` when out of range), and assert it is a
`DistributedTransformerBlock`.  Succeeds with the template block. -/
def build_subgraph_check {R B K W : Type}
    (layers : List (Layer R B K W)) (layer_group : List Nat) :
    Except String (DistributedTransformerBlock R B K W) :=
  if 0 < layer_group.length then
    if layer_group.headD 0 < layers.length then
      match layers.getD (layer_group.headD 0) default with
      | Layer.block b => Except.ok b
      | Layer.other _ =>
        Except.error "Subgraph layer must be a DistributedTransformerBlock"
    else Except.error "IndexError: list index out of range"
  else Except.error "Subgraph layer groups must contain at least one layer"

/-- Modelled from the spec: `Module.build_subgraph` and `ops.call` live in the
graph layer, outside `src/`.  Per the design (section 4.4), invoking a
group's compiled unit with the runtime layer index `idx` and the weight
prefix of layer `idx` behaves exactly as direct invocation of the layer at
index `idx` (the groups are required to be structurally identical and the
per-layer weights are resolved by the external prefix scheme). -/
def subgraph_invoke {R B K W : Type} [Add R]
    (layers : List (Layer R B K W)) (idx : Nat)
    (h : List (List R)) (sb : List B) (kv : List K) (iro : List (List Int)) :
    Except String (List (List R)) :=
  (layers.getD idx default).call idx h sb kv iro

/-- The layer-stack traversal of `__call__` starting at layer `idx` with
`fuel` layers remaining.  In subgraph mode a layer belonging to a declared
group (first match, as the Python loop breaks) is invoked through that
group's compiled unit; otherwise the layer is called directly. -/
def run_layers_from {R B K W : Type} [Add R]
    (layers : List (Layer R B K W)) (groups : List (List Nat)) (use_sub : Bool)
    (idx fuel : Nat) (h : List (List R)) (sb : List B) (kv : List K)
    (iro : List (List Int)) : Except String (List (List R)) :=
  match fuel with
  | 0 => Except.ok h
  | Nat.succ fuel2 =>
    let step :=
      if use_sub then
        match groups.find? (fun g => g.contains idx) with
        | some _ => subgraph_invoke layers idx h sb kv iro
        | none => (layers.getD idx default).call idx h sb kv iro
      else (layers.getD idx default).call idx h sb kv iro
    step.bind (fun h2 => run_layers_from layers groups use_sub (idx + 1) fuel2 h2 sb kv iro)

/-- Everything in `__call__` before logit extraction: embedding, per-device
cache-collection construction, distribution of the row offsets, then the
layer stack (building and checking the subgraphs first when in subgraph
mode). -/
def DistributedTransformer.forward_hidden {R B K KIn T P W : Type} [Add R]
    (m : DistributedTransformer R B K KIn T P W) (tokens : T)
    (signal_buffers : List B) (kv_cache_inputs_per_dev : List KIn)
    (input_row_offsets : List Int) : Except String (List (List R)) :=
  let h := m.embed_tokens tokens signal_buffers
  let kv_collections := kv_cache_inputs_per_dev.map m.kv_collection_constructor
  let input_row_offsets2 := distribute_value input_row_offsets m.devices
  if m.use_subgraphs then
    (mapME (build_subgraph_check m.layers) m.subgraph_layer_groups).bind
      (fun _subgraphs =>
        run_layers_from m.layers m.subgraph_layer_groups true 0 m.layers.length
          h signal_buffers kv_collections input_row_offsets2)
  else
    run_layers_from m.layers m.subgraph_layer_groups false 0 m.layers.length
      h signal_buffers kv_collections input_row_offsets2

/-- The `last_logits` expression of `__call__`: gather the final hidden rows
of device 0 at `input_row_offsets[1:] - 1`, replicate them across the
devices, apply the final norm and the output projection, take device 0's
result and cast it to float32 (`castF` models the external `ops.cast` to
`DType.float32`). -/
def DistributedTransformer.last_logits_of {R B K KIn T P W : Type} [Inhabited R]
    (m : DistributedTransformer R B K KIn T P W) (castF : List R → List R)
    (h : List (List R)) (signal_buffers : List B)
    (input_row_offsets : List Int) : List R :=
  castF
    ((m.lm_head
        (m.norm
          (distribute_value
            (gatherAxis0 (h.getD 0 []) (lastTokenIndices input_row_offsets))
            m.devices))
        signal_buffers).getD 0 [])

/-- The full-sequence logits expression used by the `ALL` and `VARIABLE`
branches: project every token's hidden state (no gather), take device 0's
result and cast it. -/
def DistributedTransformer.all_logits_of {R B K KIn T P W : Type}
    (m : DistributedTransformer R B K KIn T P W) (castF : List R → List R)
    (h : List (List R)) (signal_buffers : List B) : List R :=
  castF ((m.lm_head (m.norm h) signal_buffers).getD 0 [])

/-- Logit extraction: `last_logits` is always computed; the `VARIABLE` branch
(dead code, unreachable through `__init__`) and the `ALL` branch additionally
set `logits` and `offsets`, producing the 3-tuple; otherwise the 1-tuple is
returned. -/
def DistributedTransformer.extract_logits {R B K KIn T P W : Type} [Inhabited R]
    (m : DistributedTransformer R B K KIn T P W) (castF : List R → List R)
    (h : List (List R)) (signal_buffers : List B)
    (return_n_logits : List Int) (input_row_offsets : List Int) :
    CallResult R :=
  let last_logits := m.last_logits_of castF h signal_buffers input_row_offsets
  let lo : Option (List R) × Option (List Int) :=
    match m.return_logits with
    | ReturnLogits.VARIABLE =>
      let k := return_n_logits.getD 0 0
      let return_n_logits_range := rangeInt k 0 (-1)
      let offsets0 := (input_row_offsets.drop 1).map
        (fun o => return_n_logits_range.map (fun r => o - r))
      let last_indices := offsets0.flatten
      let logits := gatherAxis0 (m.all_logits_of castF h signal_buffers)
        last_indices
      (some logits, some (rangeInt 0 (Int.ofNat last_indices.length + k) k))
    | ReturnLogits.ALL =>
      (some (m.all_logits_of castF h signal_buffers), some input_row_offsets)
    | ReturnLogits.LAST_TOKEN => (none, none)
  match lo with
  | (some logits, some offsets) => CallResult.three last_logits logits offsets
  | _ => CallResult.one last_logits

/-- `DistributedTransformer.__call__`: run the stack, then extract logits. -/
def DistributedTransformer.call {R B K KIn T P W : Type} [Add R] [Inhabited R]
    (m : DistributedTransformer R B K KIn T P W) (castF : List R → List R)
    (tokens : T) (signal_buffers : List B) (kv_cache_inputs_per_dev : List KIn)
    (return_n_logits : List Int) (input_row_offsets : List Int) :
    Except String (CallResult R) :=
  (m.forward_hidden tokens signal_buffers kv_cache_inputs_per_dev
      input_row_offsets).bind
    (fun hF =>
      Except.ok
        (m.extract_logits castF hF signal_buffers return_n_logits
          input_row_offsets))

/-- Dot product of two integer vectors (truncating at the shorter one, as
pointwise products of aligned entries). -/
def dot (u v : List Int) : Int :=
  (List.zipWith (fun a b => a * b) u v).sum

/-- Matrix-vector product: the matrix is its list of rows. -/
def matVec (M : List (List Int)) (x : List Int) : List Int :=
  M.map (fun r => dot r x)

/-- A concrete nonlinear elementwise activation (rectifier), so that the
sharding equivalence below is not an artifact of linearity. -/
def relu (z : Int) : Int := max z 0

/-- Modelled from the spec: the unsharded MLP layer of section 4.1 (the MLP
implementation lives in `max.nn.linear`, outside `src/`), over exact integer
arithmetic so that floating-point tolerance becomes equality: an input
projection `W1`, an elementwise nonlinearity, and an output projection `W2`
given by its rows (one row per output coordinate, one column per hidden
unit). -/
def mlpApply (W1 W2 : List (List Int)) (x : List Int) : List Int :=
  matVec W2 ((matVec W1 x).map relu)

/-- Modelled from the spec: tensor-parallel sharding of the MLP with one
shard per entry of `cs` (the hidden units assigned to each device): shard
`i` holds the `cs[i]` corresponding rows of `W1` and the matching columns of
`W2`, and applies the same MLP formula to its own weight slices, producing
the per-device partial outputs. -/
def shard_outputs : List Nat → List (List Int) → List (List Int) → List Int →
    List (List Int)
  | [], _, _, _ => []
  | c :: cs, W1, W2, x =>
    mlpApply (W1.take c) (W2.map (fun r => r.take c)) x ::
      shard_outputs cs (W1.drop c) (W2.map (fun r => r.drop c)) x

/-- Elementwise sum of two per-device partial output vectors. -/
def addVec (u v : List Int) : List Int :=
  List.zipWith (fun a b => a + b) u v

/-- The collective reduction (plain allreduce combine) of the per-device
partial outputs: their elementwise sum. -/
def reduce_partials : List (List Int) → List Int
  | [] => []
  | [v] => v
  | v :: vs => addVec v (reduce_partials vs)

/-- Concrete Shardable MLP whose shards have no retrievable projection weight
(used by the C2 instances). -/
def mlpC2 : ShardableMLP Int Unit :=
  { shard := fun _ => [{ apply := fun x => x, down_proj_weight := none }] }

/-- Concrete distributed-GEMM configuration enabling the fused path. -/
def cfgC2 : DistributedGemmConfig := { enable_matmul_allreduce := true }

/-- Concrete block built by `DistributedTransformerBlock.init` with the fused
path enabled and weightless shards. -/
def blkC2 : DistributedTransformerBlock Int Unit Unit Unit :=
  DistributedTransformerBlock.init (fun _ xs _ _ _ => xs) mlpC2
    (fun h => h) (fun h => h) [0, 1] (some cfgC2)
    (fun v _ => v) (fun v _ _ => v)

/-- Concrete model in subgraph mode whose group list contains an empty group. -/
def mC3 : DistributedTransformer Int Unit Unit Unit Unit Unit Unit :=
  { dim := 1
    n_heads := 1
    layers := []
    norm := fun h => h
    lm_head := fun h _ => h
    embed_tokens := fun _ _ => [[1]]
    kv_params := ()
    kv_collection_constructor := fun _ => ()
    return_logits := ReturnLogits.LAST_TOKEN
    devices := [0]
    use_subgraphs := true
    subgraph_layer_groups := [[]] }

/-- Concrete model in `LAST_TOKEN` mode with two tokens. -/
def mC4 : DistributedTransformer Int Unit Unit Unit Unit Unit Unit :=
  { dim := 1
    n_heads := 1
    layers := []
    norm := fun h => h
    lm_head := fun h _ => h
    embed_tokens := fun _ _ => [[5, 6]]
    kv_params := ()
    kv_collection_constructor := fun _ => ()
    return_logits := ReturnLogits.LAST_TOKEN
    devices := [0]
    use_subgraphs := false
    subgraph_layer_groups := [[]] }

/-- Concrete model in `ALL` mode with two tokens. -/
def mC6 : DistributedTransformer Int Unit Unit Unit Unit Unit Unit :=
  { dim := 1
    n_heads := 1
    layers := []
    norm := fun h => h
    lm_head := fun h _ => h
    embed_tokens := fun _ _ => [[5, 6]]
    kv_params := ()
    kv_collection_constructor := fun _ => ()
    return_logits := ReturnLogits.ALL
    devices := [0]
    use_subgraphs := false
    subgraph_layer_groups := [[]] }

/-- Concrete block with one device, identity capabilities and plain reduce. -/
def blkC7 : DistributedTransformerBlock Int Unit Unit Unit :=
  { self_attn := fun _ xs _ _ _ => xs
    mlp_shards := [{ apply := fun x => x, down_proj_weight := some () }]
    input_layernorm := fun h => h
    post_attention_layernorm := fun h => h
    devices := [0]
    distributed_gemm_config := none
    allreduce := fun v _ => v
    matmul_allreduce := fun v _ _ => v }

/-- Concrete block used as the single layer of the C8 instance. -/
def blkC8 : DistributedTransformerBlock Int Unit Unit Unit :=
  { self_attn := fun _ xs _ _ _ => xs
    mlp_shards := [{ apply := fun x => x, down_proj_weight := some () }]
    input_layernorm := fun h => h
    post_attention_layernorm := fun h => h
    devices := [0]
    distributed_gemm_config := none
    allreduce := fun v _ => v
    matmul_allreduce := fun v _ _ => v }

/-- Concrete model with one block layer in a valid one-group partition. -/
def mC8 : DistributedTransformer Int Unit Unit Unit Unit Unit Unit :=
  { dim := 1
    n_heads := 1
    layers := [Layer.block blkC8]
    norm := fun h => h
    lm_head := fun h _ => h
    embed_tokens := fun _ _ => [[3, 4]]
    kv_params := ()
    kv_collection_constructor := fun _ => ()
    return_logits := ReturnLogits.LAST_TOKEN
    devices := [0]
    use_subgraphs := false
    subgraph_layer_groups := [[0]] }

/-- Concrete non-block layer entry used by the C10 instance. -/
def layerC10 : Layer Int Unit Unit Unit := Layer.other (fun _ h _ _ _ => h)

/-- Concrete model with two layers and defaulted subgraph layer groups. -/
def mC10 : DistributedTransformer Int Unit Unit Unit Unit Unit Unit :=
  { dim := 1
    n_heads := 1
    layers := [layerC10, layerC10]
    norm := fun h => h
    lm_head := fun h _ => h
    embed_tokens := fun _ _ => [[1]]
    kv_params := ()
    kv_collection_constructor := fun _ => ()
    return_logits := ReturnLogits.LAST_TOKEN
    devices := [0]
    use_subgraphs := false
    subgraph_layer_groups := [[0, 1]] }

theorem getD_zipWith_of_lt {α β γ : Type} (f : α → β → γ) (as : List α)
    (bs : List β) (i : Nat) (da : α) (db : β) (dc : γ)
    (ha : i < as.length) (hb : i < bs.length) :
    (List.zipWith f as bs).getD i dc = f (as.getD i da) (bs.getD i db) := by
  have hz : i < (List.zipWith f as bs).length := by
    rw [List.length_zipWith]
    exact lt_min ha hb
  rw [List.getD_eq_getElem _ _ hz, List.getD_eq_getElem _ _ ha,
    List.getD_eq_getElem _ _ hb, List.getElem_zipWith]

theorem getD_map_of_lt {α β : Type} (f : α → β) (l : List α) (i : Nat)
    (da : α) (db : β) (hi : i < l.length) :
    (l.map f).getD i db = f (l.getD i da) := by
  have hm : i < (l.map f).length := by simpa using hi
  rw [List.getD_eq_getElem _ _ hm, List.getD_eq_getElem _ _ hi, List.getElem_map]

theorem getD_range_map {β : Type} (f : Nat → β) (k i : Nat) (d : β)
    (hi : i < k) : ((List.range k).map f).getD i d = f i := by
  rw [getD_map_of_lt f _ i 0 d (by simpa using hi),
    List.getD_eq_getElem _ _ (by simpa using hi), List.getElem_range]

theorem getD_mem_of_lt {α : Type} (l : List α) (i : Nat) (d : α)
    (hi : i < l.length) : l.getD i d ∈ l := by
  rw [List.getD_eq_getElem _ _ hi]
  exact List.getElem_mem hi

theorem mapME_mem_of_ok {α β ε : Type} (f : α → Except ε β) :
    ∀ (l : List α) (ys : List β), mapME f l = Except.ok ys →
      ∀ a ∈ l, ∃ b, f a = Except.ok b := by
  intro l
  induction l with
  | nil => intro ys _ a ha; cases ha
  | cons x xs ih =>
    intro ys hys a ha
    rw [mapME] at hys
    cases hfx : f x with
    | error e => rw [hfx] at hys; exact absurd hys (by simp [Except.bind])
    | ok b =>
      rw [hfx] at hys
      cases hxs : mapME f xs with
      | error e => rw [hxs] at hys; exact absurd hys (by simp [Except.bind])
      | ok bs =>
        cases List.mem_cons.mp ha with
        | inl hax => exact hax ▸ ⟨b, hfx⟩
        | inr hmem => exact ih bs hxs a hmem

theorem mapME_ok_of_forall {α β ε : Type} (f : α → Except ε β) (g : α → β) :
    ∀ (l : List α), (∀ a ∈ l, f a = Except.ok (g a)) →
      mapME f l = Except.ok (l.map g) := by
  intro l
  induction l with
  | nil => intro _; rfl
  | cons x xs ih =>
    intro hall
    rw [mapME, hall x (List.mem_cons_self x xs),
      ih (fun a ha => hall a (List.mem_cons_of_mem x ha))]
    rfl

theorem mapME_error_of_mem {α β ε : Type} (f : α → Except ε β) (e : ε)
    (hconst : ∀ a, f a = Except.error e ∨ ∃ b, f a = Except.ok b) :
    ∀ (l : List α) (a : α), a ∈ l → f a = Except.error e →
      mapME f l = Except.error e := by
  intro l
  induction l with
  | nil => intro a ha; cases ha
  | cons x xs ih =>
    intro a ha hfa
    rw [mapME]
    cases List.mem_cons.mp ha with
    | inl hax =>
      rw [hax] at hfa
      rw [hfa]
      rfl
    | inr hmem =>
      cases hconst x with
      | inl hx => rw [hx]; rfl
      | inr hx =>
        obtain ⟨b, hx⟩ := hx
        rw [hx]
        show (mapME f xs).bind _ = Except.error e
        rw [ih a hmem hfa]
        rfl

theorem reduce_partials_cons (v : List Int) (vs : List (List Int))
    (h : vs ≠ []) : reduce_partials (v :: vs) = addVec v (reduce_partials vs) := by
  cases vs with
  | nil => exact absurd rfl h
  | cons w ws => rfl

theorem zipWith_take_of_le {α β γ : Type} (f : α → β → γ) :
    ∀ (u : List α) (v : List β) (c : Nat), v.length ≤ c →
      List.zipWith f (u.take c) v = List.zipWith f u v := by
  intro u
  induction u with
  | nil => intro v c _; simp
  | cons a u ih =>
    intro v c hc
    cases v with
    | nil => simp
    | cons b v =>
      cases c with
      | zero => simp at hc
      | succ c =>
        simp only [List.take, List.zipWith]
        rw [ih v c (by simpa using hc)]

theorem dot_split (u v : List Int) (c : Nat) :
    dot u v = dot (u.take c) (v.take c) + dot (u.drop c) (v.drop c) := by
  unfold dot
  rw [← List.take_zipWith, ← List.drop_zipWith, List.sum_take_add_sum_drop]

theorem zipWith_map_same {α γ : Type} (f : γ → γ → γ) (g h : α → γ) :
    ∀ (l : List α),
      List.zipWith f (l.map g) (l.map h) = l.map (fun a => f (g a) (h a)) := by
  intro l
  induction l with
  | nil => rfl
  | cons a l ih => simp only [List.map, List.zipWith, ih]

/-- C1: for every configuration, constructing a `DistributedTransformer` with
`return_logits = VARIABLE` fails during construction with the variable-logits
`ValueError`, while `LAST_TOKEN` and `ALL` construction succeeds (no error is
raised). -/
theorem c1_variable_mode_rejected_at_construction {R B K KIn T P W : Type}
    (dim n_heads : Nat) (layers : List (Layer R B K W))
    (norm : List (List R) → List (List R))
    (output : List (List R) → List B → List (List R))
    (embedding : T → List B → List (List R))
    (kv_params : P) (kv_collection_constructor : KIn → K)
    (devices : List DeviceRef) (use_subgraphs : Bool)
    (subgraph_layer_groups : Option (List (List Nat))) :
    DistributedTransformer.init dim n_heads layers norm output embedding
        kv_params kv_collection_constructor devices ReturnLogits.VARIABLE
        use_subgraphs subgraph_layer_groups
      = Except.error "DistributedTransformer does not support variable logits."
    ∧ (DistributedTransformer.init dim n_heads layers norm output embedding
        kv_params kv_collection_constructor devices ReturnLogits.LAST_TOKEN
        use_subgraphs subgraph_layer_groups).isOk = true
    ∧ (DistributedTransformer.init dim n_heads layers norm output embedding
        kv_params kv_collection_constructor devices ReturnLogits.ALL
        use_subgraphs subgraph_layer_groups).isOk = true := by
  refine ⟨?_, ?_, ?_⟩ <;> rfl

/-- C10: a `DistributedTransformer` successfully constructed with
`subgraph_layer_groups = None` defaults its groups to a single group holding
every layer index `0 .. len(layers) - 1` in order. -/
theorem c10_default_single_group_of_all_layers {R B K KIn T P W : Type}
    (dim n_heads : Nat) (layers : List (Layer R B K W))
    (norm : List (List R) → List (List R))
    (output : List (List R) → List B → List (List R))
    (embedding : T → List B → List (List R))
    (kv_params : P) (kv_collection_constructor : KIn → K)
    (devices : List DeviceRef) (return_logits : ReturnLogits)
    (use_subgraphs : Bool)
    (m : DistributedTransformer R B K KIn T P W)
    (hinit : DistributedTransformer.init dim n_heads layers norm output
        embedding kv_params kv_collection_constructor devices return_logits
        use_subgraphs none = Except.ok m) :
    m.subgraph_layer_groups = [List.range layers.length] := by
  simp only [DistributedTransformer.init] at hinit
  split at hinit
  · exact Except.noConfusion hinit
  · cases hinit
    rfl

/-- C10 witness: a concrete model constructed with `none` groups defaults to
the single group `[[0, 1]]` over its two layers. -/
theorem c10_default_single_group_of_all_layers_witness :
    DistributedTransformer.init 1 1 [layerC10, layerC10] mC10.norm mC10.lm_head
        mC10.embed_tokens () mC10.kv_collection_constructor [0]
        ReturnLogits.LAST_TOKEN false none = Except.ok mC10
    ∧ mC10.subgraph_layer_groups
      = [List.range ([layerC10, layerC10] : List (Layer Int Unit Unit Unit)).length] :=
  ⟨rfl,
    c10_default_single_group_of_all_layers 1 1 [layerC10, layerC10] mC10.norm
      mC10.lm_head mC10.embed_tokens () mC10.kv_collection_constructor [0]
      ReturnLogits.LAST_TOKEN false mC10 rfl⟩

/-- C2 counterexample: a block built with the fused path enabled and shards
without a retrievable projection weight is constructed without any error
(`DistributedTransformerBlock.init` is total and performs no weight check),
yet its per-block call fails with the missing-attribute error at call time —
refuting that the error is detected at construction and that `__call__`
never fails for this reason. -/
theorem c2_missing_weight_counterexample :
    blkC2.call 0 [[1], [2]] [(), ()] [(), ()] [[0, 1], [0, 1]]
      = Except.error "AttributeError: object has no attribute down_proj" := rfl

/-- C2 (amended): when the fused projection+reduce strategy is selected and
some MLP shard has no retrievable projection weight, block construction still
succeeds (it performs no check), and the failure happens at call time: every
per-block call whose post-attention-norm output covers the shard indices (so
that the per-device MLP indexing itself does not raise first) fails with the
missing-attribute error raised while extracting the per-shard weights. -/
theorem c2_missing_weight_fails_at_call {R B K W : Type} [Add R]
    (attention : Nat → List (List R) → List B → List K → List (List Int) → List (List R))
    (mlp : ShardableMLP R W)
    (attention_norm mlp_norm : List (List R) → List (List R))
    (devices : List DeviceRef) (cfg : DistributedGemmConfig)
    (allreduceOp : List (List R) → List B → List (List R))
    (matmulAllreduceOp : List (List R) → List W → List B → List (List R))
    (i : Nat) (hi : i < (mlp.shard devices.length).length)
    (hmiss : ((mlp.shard devices.length).getD i default_shard).down_proj_weight
      = none)
    (henable : cfg.enable_matmul_allreduce = true)
    (layer_idx : Nat) (xs : List (List R)) (signal_buffers : List B)
    (kv_collections : List K) (input_row_offsets : List (List Int))
    (hlen : (mlp.shard devices.length).length
      ≤ (mlp_norm (List.zipWith tensorAdd xs
          (attention layer_idx (attention_norm xs) signal_buffers
            kv_collections input_row_offsets))).length) :
    (DistributedTransformerBlock.init attention mlp attention_norm mlp_norm
        devices (some cfg) allreduceOp matmulAllreduceOp).call layer_idx xs
        signal_buffers kv_collections input_row_offsets
      = Except.error "AttributeError: object has no attribute down_proj" := by
  have hmap : mapME (fun (s : MLPShard R W) =>
      match s.down_proj_weight with
      | some w => Except.ok w
      | none => Except.error "AttributeError: object has no attribute down_proj")
      (mlp.shard devices.length)
      = Except.error "AttributeError: object has no attribute down_proj" := by
    refine mapME_error_of_mem _ _ ?_ _
      ((mlp.shard devices.length).getD i default_shard)
      (getD_mem_of_lt _ _ _ hi) ?_
    · intro s
      cases hs : s.down_proj_weight with
      | none => left; simp [hs]
      | some w => right; exact ⟨w, by simp [hs]⟩
    · rw [hmiss]
  have hredE : ∀ (M : List (List R)),
      (DistributedTransformerBlock.init attention mlp attention_norm mlp_norm
        devices (some cfg) allreduceOp
        matmulAllreduceOp).reduce_mlp_outs M signal_buffers
      = Except.error "AttributeError: object has no attribute down_proj" := by
    intro M
    unfold DistributedTransformerBlock.reduce_mlp_outs
    simp [DistributedTransformerBlock.init, henable, hmap, Except.bind]
  have hidx : mapME (fun k2 =>
      if k2 < (mlp_norm (List.zipWith tensorAdd xs
          (attention layer_idx (attention_norm xs) signal_buffers
            kv_collections input_row_offsets))).length then
        Except.ok (((mlp.shard devices.length).getD k2 default_shard).apply
          ((mlp_norm (List.zipWith tensorAdd xs
            (attention layer_idx (attention_norm xs) signal_buffers
              kv_collections input_row_offsets))).getD k2 []))
      else Except.error "IndexError: list index out of range")
      (List.range (mlp.shard devices.length).length)
      = Except.ok ((List.range (mlp.shard devices.length).length).map
        (fun k2 => ((mlp.shard devices.length).getD k2 default_shard).apply
          ((mlp_norm (List.zipWith tensorAdd xs
            (attention layer_idx (attention_norm xs) signal_buffers
              kv_collections input_row_offsets))).getD k2 []))) := by
    refine mapME_ok_of_forall _ _ _ (fun k2 hk2 => ?_)
    have hk2R : k2 < (mlp.shard devices.length).length := List.mem_range.mp hk2
    rw [if_pos (by omega)]
  have hcall : (DistributedTransformerBlock.init attention mlp attention_norm
      mlp_norm devices (some cfg) allreduceOp matmulAllreduceOp).call layer_idx
      xs signal_buffers kv_collections input_row_offsets
      = (mapME (fun k2 =>
          if k2 < (mlp_norm (List.zipWith tensorAdd xs
              (attention layer_idx (attention_norm xs) signal_buffers
                kv_collections input_row_offsets))).length then
            Except.ok (((mlp.shard devices.length).getD k2 default_shard).apply
              ((mlp_norm (List.zipWith tensorAdd xs
                (attention layer_idx (attention_norm xs) signal_buffers
                  kv_collections input_row_offsets))).getD k2 []))
          else Except.error "IndexError: list index out of range")
          (List.range (mlp.shard devices.length).length)).bind
        (fun mlp_outs =>
          ((DistributedTransformerBlock.init attention mlp attention_norm
            mlp_norm devices (some cfg) allreduceOp
            matmulAllreduceOp).reduce_mlp_outs mlp_outs signal_buffers).bind
          (fun mlp_outs2 => Except.ok (List.zipWith tensorAdd
            (List.zipWith tensorAdd xs
              (attention layer_idx (attention_norm xs) signal_buffers
                kv_collections input_row_offsets)) mlp_outs2))) := rfl
  rw [hcall, hidx]
  show ((DistributedTransformerBlock.init attention mlp attention_norm mlp_norm
      devices (some cfg) allreduceOp matmulAllreduceOp).reduce_mlp_outs
      ((List.range (mlp.shard devices.length).length).map
        (fun k2 => ((mlp.shard devices.length).getD k2 default_shard).apply
          ((mlp_norm (List.zipWith tensorAdd xs
            (attention layer_idx (attention_norm xs) signal_buffers
              kv_collections input_row_offsets))).getD k2 [])))
      signal_buffers).bind _ = _
  rw [hredE]
  rfl

/-- C2 witness: the concrete weightless fused block satisfies the amended
claim's hypotheses and exhibits the call-time failure. -/
theorem c2_missing_weight_fails_at_call_witness :
    0 < (mlpC2.shard ([0, 1] : List DeviceRef).length).length
    ∧ ((mlpC2.shard ([0, 1] : List DeviceRef).length).getD 0
        default_shard).down_proj_weight = none
    ∧ cfgC2.enable_matmul_allreduce = true
    ∧ (mlpC2.shard ([0, 1] : List DeviceRef).length).length
      ≤ (List.zipWith tensorAdd [[1], [2]] [[1], [2]] : List (List Int)).length
    ∧ blkC2.call 1 [[1], [2]] [(), ()] [(), ()] [[0, 1], [0, 1]]
        = Except.error "AttributeError: object has no attribute down_proj" :=
  ⟨by decide, rfl, rfl, by decide,
    c2_missing_weight_fails_at_call (fun _ xs _ _ _ => xs) mlpC2 (fun h => h)
      (fun h => h) [0, 1] cfgC2 (fun v _ => v) (fun v _ _ => v) 0 (by decide)
      rfl rfl 1 [[1], [2]] [(), ()] [(), ()] [[0, 1], [0, 1]] (by decide)⟩

/-- C3 counterexample: a model whose `subgraph_layer_groups` contains an
empty group is constructed successfully (`__init__` does not validate the
groups), and its forward call then fails with the empty-group assertion —
refuting construction-time rejection and refuting that the call never
fails for this reason. -/
theorem c3_empty_group_counterexample :
    ((DistributedTransformer.init 1 1 ([] : List (Layer Int Unit Unit Unit))
        (fun h => h) (fun h _ => h)
        (fun (_ : Unit) (_ : List Unit) => ([[1]] : List (List Int))) ()
        (fun (_ : Unit) => ()) [0] ReturnLogits.LAST_TOKEN true
        (some [[]])).map
      (fun m => m.call (fun l => l) () [] [] [0] [0]))
      = Except.ok
        (Except.error "Subgraph layer groups must contain at least one layer") :=
  rfl

/-- C3 (amended): a model constructed in subgraph mode whose group list
contains a group failing the per-group subgraph checks (empty, or template
not a block) is accepted by construction, and every forward call fails at
call time while building the subgraphs. -/
theorem c3_group_checks_fail_at_call {R B K KIn T P W : Type} [Add R] [Inhabited R]
    (dim n_heads : Nat) (layers : List (Layer R B K W))
    (norm : List (List R) → List (List R))
    (output : List (List R) → List B → List (List R))
    (embedding : T → List B → List (List R))
    (kv_params : P) (kv_collection_constructor : KIn → K)
    (devices : List DeviceRef) (return_logits : ReturnLogits)
    (groupsOpt : Option (List (List Nat)))
    (m : DistributedTransformer R B K KIn T P W)
    (hinit : DistributedTransformer.init dim n_heads layers norm output
        embedding kv_params kv_collection_constructor devices return_logits
        true groupsOpt = Except.ok m)
    (j : Nat) (hj : j < m.subgraph_layer_groups.length)
    (hbad : (build_subgraph_check m.layers
        (m.subgraph_layer_groups.getD j [])).isOk = false)
    (castF : List R → List R) (tokens : T) (signal_buffers : List B)
    (kv_cache_inputs_per_dev : List KIn) (return_n_logits : List Int)
    (input_row_offsets : List Int) :
    (m.call castF tokens signal_buffers kv_cache_inputs_per_dev
        return_n_logits input_row_offsets).isOk = false := by
  have husub : m.use_subgraphs = true := by
    simp only [DistributedTransformer.init] at hinit
    split at hinit
    · exact Except.noConfusion hinit
    · cases hinit; rfl
  cases hgate : mapME (build_subgraph_check m.layers) m.subgraph_layer_groups with
  | ok ys =>
    obtain ⟨b, hb⟩ := mapME_mem_of_ok _ _ _ hgate _ (getD_mem_of_lt _ j [] hj)
    rw [hb] at hbad
    exact Bool.noConfusion hbad
  | error e =>
    have hcall : m.call castF tokens signal_buffers kv_cache_inputs_per_dev
        return_n_logits input_row_offsets = Except.error e := by
      unfold DistributedTransformer.call DistributedTransformer.forward_hidden
      rw [husub]
      simp [hgate, Except.bind]
    rw [hcall]
    rfl

/-- C3 witness: the concrete subgraph-mode model with an empty group is
constructed successfully and its forward call is not successful. -/
theorem c3_group_checks_fail_at_call_witness :
    DistributedTransformer.init 1 1 ([] : List (Layer Int Unit Unit Unit))
        mC3.norm mC3.lm_head mC3.embed_tokens () mC3.kv_collection_constructor
        [0] ReturnLogits.LAST_TOKEN true (some [[]]) = Except.ok mC3
    ∧ 0 < mC3.subgraph_layer_groups.length
    ∧ (build_subgraph_check mC3.layers
        (mC3.subgraph_layer_groups.getD 0 [])).isOk = false
    ∧ (mC3.call (fun l => l) () [] [] [0] [0]).isOk = false :=
  ⟨rfl, by decide, rfl,
    c3_group_checks_fail_at_call 1 1 [] mC3.norm mC3.lm_head mC3.embed_tokens
      () mC3.kv_collection_constructor [0] ReturnLogits.LAST_TOKEN (some [[]])
      mC3 rfl 0 (by decide) rfl (fun l => l) () [] [] [0] [0]⟩

/-- C4: every successful forward call returns `(last_logits,)` in
`LAST_TOKEN` mode and `(last_logits, logits, offsets)` in `ALL` mode, and in
every case `last_logits` is computed and is the first element of the
returned tuple. -/
theorem c4_output_tuple_shape {R B K KIn T P W : Type} [Add R] [Inhabited R]
    (m : DistributedTransformer R B K KIn T P W) (castF : List R → List R)
    (tokens : T) (signal_buffers : List B) (kv_cache_inputs_per_dev : List KIn)
    (return_n_logits : List Int) (input_row_offsets : List Int)
    (hF : List (List R)) (res : CallResult R)
    (hrun : m.forward_hidden tokens signal_buffers kv_cache_inputs_per_dev
      input_row_offsets = Except.ok hF)
    (hok : m.call castF tokens signal_buffers kv_cache_inputs_per_dev
      return_n_logits input_row_offsets = Except.ok res) :
    res.first = m.last_logits_of castF hF signal_buffers input_row_offsets
    ∧ (match m.return_logits with
       | ReturnLogits.LAST_TOKEN =>
         res = CallResult.one
           (m.last_logits_of castF hF signal_buffers input_row_offsets)
       | ReturnLogits.ALL =>
         res = CallResult.three
           (m.last_logits_of castF hF signal_buffers input_row_offsets)
           (m.all_logits_of castF hF signal_buffers) input_row_offsets
       | ReturnLogits.VARIABLE => True) := by
  have hcall : m.call castF tokens signal_buffers kv_cache_inputs_per_dev
      return_n_logits input_row_offsets
      = (m.forward_hidden tokens signal_buffers kv_cache_inputs_per_dev
          input_row_offsets).bind
        (fun hF2 => Except.ok (m.extract_logits castF hF2 signal_buffers
          return_n_logits input_row_offsets)) := rfl
  rw [hcall, hrun] at hok
  have hres : m.extract_logits castF hF signal_buffers return_n_logits
      input_row_offsets = res := Except.ok.inj hok
  subst hres
  cases hrl : m.return_logits with
  | LAST_TOKEN =>
    simp [DistributedTransformer.extract_logits, hrl, CallResult.first]
  | ALL =>
    simp [DistributedTransformer.extract_logits, hrl, CallResult.first]
  | VARIABLE =>
    simp [DistributedTransformer.extract_logits, hrl, CallResult.first]

/-- C4 witness: a concrete `LAST_TOKEN` model with two tokens returns the
1-tuple whose first element is the last-token logits. -/
theorem c4_output_tuple_shape_witness :
    mC4.forward_hidden () [] [] [0, 2] = Except.ok [[5, 6]]
    ∧ mC4.call (fun l => l) () [] [] [7] [0, 2]
      = Except.ok (CallResult.one [6])
    ∧ ((CallResult.one ([6] : List Int)).first
        = mC4.last_logits_of (fun l => l) [[5, 6]] [] [0, 2]
      ∧ (match mC4.return_logits with
         | ReturnLogits.LAST_TOKEN =>
           CallResult.one ([6] : List Int) = CallResult.one
             (mC4.last_logits_of (fun l => l) [[5, 6]] [] [0, 2])
         | ReturnLogits.ALL =>
           CallResult.one ([6] : List Int) = CallResult.three
             (mC4.last_logits_of (fun l => l) [[5, 6]] [] [0, 2])
             (mC4.all_logits_of (fun l => l) [[5, 6]] []) [0, 2]
         | ReturnLogits.VARIABLE => True)) :=
  ⟨rfl, rfl,
    c4_output_tuple_shape mC4 (fun l => l) () [] [] [7] [0, 2] [[5, 6]]
      (CallResult.one [6]) rfl rfl⟩

/-- C5: the last-token indices used by logit extraction are
`offsets[1:] - 1` elementwise (e.g. `[0, 3, 5, 9]` yields `[2, 4, 8]`), and
the gather along axis 0 picks exactly row `offsets[j+1] - 1` for sequence
`j`. -/
theorem c5_last_token_indices_and_gather {ρ : Type} [Inhabited ρ]
    (offs : List Int) (t : List ρ) (j : Nat) (hj : j + 1 < offs.length) :
    lastTokenIndices offs = (offs.drop 1).map (fun o => o - 1)
    ∧ (gatherAxis0 t (lastTokenIndices offs)).getD j default
      = t.getD (offs.getD (j + 1) 0 - 1).toNat default
    ∧ lastTokenIndices [0, 3, 5, 9] = [2, 4, 8] := by
  refine ⟨rfl, ?_, by decide⟩
  have hjd : j < (offs.drop 1).length := by
    rw [List.length_drop]
    omega
  have hlt : j < (lastTokenIndices offs).length := by
    unfold lastTokenIndices
    rw [List.length_map]
    exact hjd
  unfold gatherAxis0
  rw [getD_map_of_lt _ _ _ 0 _ hlt]
  suffices hidx : (lastTokenIndices offs).getD j 0 = offs.getD (j + 1) 0 - 1 by
    rw [hidx]
  unfold lastTokenIndices
  rw [getD_map_of_lt _ _ _ 0 _ hjd]
  congr 1
  rw [List.getD_eq_getElem _ _ hjd,
    List.getD_eq_getElem _ _ (show j + 1 < offs.length by omega)]
  rw [List.getElem_drop]
  congr 1
  omega

/-- C5 witness: with offsets `[0, 3, 5, 9]` the indices are `[2, 4, 8]` and
the gather picks row 2 for sequence 0. -/
theorem c5_last_token_indices_and_gather_witness :
    lastTokenIndices [0, 3, 5, 9]
      = (([0, 3, 5, 9] : List Int).drop 1).map (fun o => o - 1)
    ∧ (gatherAxis0 ([10, 20, 30, 40, 50, 60, 70, 80, 90] : List Int)
        (lastTokenIndices [0, 3, 5, 9])).getD 0 default
      = ([10, 20, 30, 40, 50, 60, 70, 80, 90] : List Int).getD
          ((([0, 3, 5, 9] : List Int).getD 1 0 - 1).toNat) default
    ∧ lastTokenIndices [0, 3, 5, 9] = [2, 4, 8] :=
  c5_last_token_indices_and_gather [0, 3, 5, 9]
    [10, 20, 30, 40, 50, 60, 70, 80, 90] 0 (by decide)

/-- C6: in `ALL` mode a successful forward call returns the 3-tuple whose
logits are the projection of every token's final hidden state (no gather is
applied before the projection) and whose offsets element is the input
row-offsets unchanged. -/
theorem c6_all_mode_projects_every_token {R B K KIn T P W : Type} [Add R]
    [Inhabited R]
    (m : DistributedTransformer R B K KIn T P W) (castF : List R → List R)
    (tokens : T) (signal_buffers : List B) (kv_cache_inputs_per_dev : List KIn)
    (return_n_logits : List Int) (input_row_offsets : List Int)
    (hF : List (List R)) (res : CallResult R)
    (hall : m.return_logits = ReturnLogits.ALL)
    (hrun : m.forward_hidden tokens signal_buffers kv_cache_inputs_per_dev
      input_row_offsets = Except.ok hF)
    (hok : m.call castF tokens signal_buffers kv_cache_inputs_per_dev
      return_n_logits input_row_offsets = Except.ok res) :
    res = CallResult.three
      (m.last_logits_of castF hF signal_buffers input_row_offsets)
      (castF ((m.lm_head (m.norm hF) signal_buffers).getD 0 []))
      input_row_offsets := by
  have hcall : m.call castF tokens signal_buffers kv_cache_inputs_per_dev
      return_n_logits input_row_offsets
      = (m.forward_hidden tokens signal_buffers kv_cache_inputs_per_dev
          input_row_offsets).bind
        (fun hF2 => Except.ok (m.extract_logits castF hF2 signal_buffers
          return_n_logits input_row_offsets)) := rfl
  rw [hcall, hrun] at hok
  have hres : m.extract_logits castF hF signal_buffers return_n_logits
      input_row_offsets = res := Except.ok.inj hok
  subst hres
  simp [DistributedTransformer.extract_logits, hall,
    DistributedTransformer.all_logits_of]

/-- C6 witness: the concrete `ALL` model returns the 3-tuple with all-token
logits and the unchanged input offsets. -/
theorem c6_all_mode_projects_every_token_witness :
    mC6.return_logits = ReturnLogits.ALL
    ∧ mC6.forward_hidden () [] [] [0, 2] = Except.ok [[5, 6]]
    ∧ mC6.call (fun l => l) () [] [] [7] [0, 2]
      = Except.ok (CallResult.three [6] [5, 6] [0, 2])
    ∧ CallResult.three ([6] : List Int) [5, 6] [0, 2]
      = CallResult.three (mC6.last_logits_of (fun l => l) [[5, 6]] [] [0, 2])
          ((fun l => l) ((mC6.lm_head (mC6.norm [[5, 6]]) []).getD 0 []))
          [0, 2] :=
  ⟨rfl, rfl, rfl,
    c6_all_mode_projects_every_token mC6 (fun l => l) () [] [] [7] [0, 2]
      [[5, 6]] (CallResult.three [6] [5, 6] [0, 2]) rfl rfl rfl⟩

/-- C7: a successful block call computes exactly the step sequence
pre-attention norm, self-attention, residual add, post-attention norm,
per-device sharded MLP, collective reduction, residual add — and slot `i` of
every per-device list holds device `i`'s data end to end. -/
theorem c7_block_call_sequence {R B K W : Type} [Add R]
    (blk : DistributedTransformerBlock R B K W) (layer_idx : Nat)
    (xs : List (List R)) (signal_buffers : List B) (kv_collections : List K)
    (input_row_offsets : List (List Int)) (n i : Nat) (out red : List (List R))
    (hn : xs.length = n)
    (hattn : (blk.self_attn layer_idx (blk.input_layernorm xs) signal_buffers
      kv_collections input_row_offsets).length = n)
    (hshards : blk.mlp_shards.length = n)
    (hred : blk.reduce_mlp_outs
      ((List.range blk.mlp_shards.length).map
        (fun k2 => (blk.mlp_shards.getD k2 default_shard).apply
          ((blk.post_attention_layernorm
            (List.zipWith tensorAdd xs
              (blk.self_attn layer_idx (blk.input_layernorm xs) signal_buffers
                kv_collections input_row_offsets))).getD k2 [])))
      signal_buffers = Except.ok red)
    (hredlen : red.length = n)
    (hout : blk.call layer_idx xs signal_buffers kv_collections
      input_row_offsets = Except.ok out)
    (hi : i < n) :
    out.length = n
    ∧ out.getD i []
      = tensorAdd
          (tensorAdd (xs.getD i [])
            ((blk.self_attn layer_idx (blk.input_layernorm xs) signal_buffers
              kv_collections input_row_offsets).getD i []))
          (red.getD i [])
    ∧ ((List.range blk.mlp_shards.length).map
        (fun k2 => (blk.mlp_shards.getD k2 default_shard).apply
          ((blk.post_attention_layernorm
            (List.zipWith tensorAdd xs
              (blk.self_attn layer_idx (blk.input_layernorm xs) signal_buffers
                kv_collections input_row_offsets))).getD k2 []))).getD i []
      = (blk.mlp_shards.getD i default_shard).apply
          ((blk.post_attention_layernorm
            (List.zipWith tensorAdd xs
              (blk.self_attn layer_idx (blk.input_layernorm xs) signal_buffers
                kv_collections input_row_offsets))).getD i []) := by
  set A := blk.self_attn layer_idx (blk.input_layernorm xs) signal_buffers
    kv_collections input_row_offsets with hA
  set NO := blk.post_attention_layernorm (List.zipWith tensorAdd xs A) with hNO
  set g := fun k2 => (blk.mlp_shards.getD k2 default_shard).apply
    (NO.getD k2 []) with hg
  have hcall : blk.call layer_idx xs signal_buffers kv_collections
      input_row_offsets
      = (mapME (fun k2 =>
          if k2 < NO.length then Except.ok (g k2)
          else Except.error "IndexError: list index out of range")
        (List.range blk.mlp_shards.length)).bind
        (fun mlp_outs =>
          (blk.reduce_mlp_outs mlp_outs signal_buffers).bind
            (fun mlp_outs2 => Except.ok (List.zipWith tensorAdd
              (List.zipWith tensorAdd xs A) mlp_outs2))) := rfl
  rw [hcall] at hout
  cases hm : mapME (fun k2 =>
      if k2 < NO.length then Except.ok (g k2)
      else Except.error "IndexError: list index out of range")
      (List.range blk.mlp_shards.length) with
  | error e =>
    rw [hm] at hout
    exact absurd hout (by simp [Except.bind])
  | ok ys =>
    have hall : ∀ k2 ∈ List.range blk.mlp_shards.length,
        (fun k2 => if k2 < NO.length then Except.ok (g k2)
          else Except.error "IndexError: list index out of range") k2
          = Except.ok (g k2) := by
      intro k2 hk2
      obtain ⟨b, hb⟩ := mapME_mem_of_ok _ _ _ hm k2 hk2
      by_cases hlt : k2 < NO.length
      · simp only [if_pos hlt]
      · simp only [if_neg hlt] at hb
        exact absurd hb (by simp)
    have hmapg := mapME_ok_of_forall _ g _ hall
    rw [hm] at hmapg
    have hys := Except.ok.inj hmapg
    subst hys
    rw [hm] at hout
    have hout2 : (blk.reduce_mlp_outs
        ((List.range blk.mlp_shards.length).map g) signal_buffers).bind
        (fun mlp_outs2 => Except.ok (List.zipWith tensorAdd
          (List.zipWith tensorAdd xs A) mlp_outs2)) = Except.ok out := hout
    rw [hred] at hout2
    have houteq : List.zipWith tensorAdd (List.zipWith tensorAdd xs A) red
        = out := Except.ok.inj hout2
    subst houteq
    have hhs : (List.zipWith tensorAdd xs A).length = n := by
      rw [List.length_zipWith, hn, hattn, min_self]
    refine ⟨?_, ?_, ?_⟩
    · rw [List.length_zipWith, hhs, hredlen, min_self]
    · rw [getD_zipWith_of_lt tensorAdd _ _ i [] [] [] (by omega) (by omega)]
      rw [getD_zipWith_of_lt tensorAdd _ _ i [] [] [] (by omega) (by omega)]
    · exact getD_range_map _ _ _ _ (by omega)

/-- C7 witness: one device, identity capabilities; the call output at slot 0
is the composed expression. -/
theorem c7_block_call_sequence_witness :
    ([[1]] : List (List Int)).length = 1
    ∧ (blkC7.self_attn 0 (blkC7.input_layernorm [[1]]) [()] [()]
        [[0, 1]]).length = 1
    ∧ blkC7.mlp_shards.length = 1
    ∧ blkC7.reduce_mlp_outs
        ((List.range blkC7.mlp_shards.length).map
          (fun k2 => (blkC7.mlp_shards.getD k2 default_shard).apply
            ((blkC7.post_attention_layernorm
              (List.zipWith tensorAdd [[1]]
                (blkC7.self_attn 0 (blkC7.input_layernorm [[1]]) [()] [()]
                  [[0, 1]]))).getD k2 []))) [()] = Except.ok [[2]]
    ∧ ([[2]] : List (List Int)).length = 1
    ∧ blkC7.call 0 [[1]] [()] [()] [[0, 1]] = Except.ok [[4]]
    ∧ (([[4]] : List (List Int)).length = 1
      ∧ ([[4]] : List (List Int)).getD 0 []
        = tensorAdd
            (tensorAdd (([[1]] : List (List Int)).getD 0 [])
              ((blkC7.self_attn 0 (blkC7.input_layernorm [[1]]) [()] [()]
                [[0, 1]]).getD 0 []))
            (([[2]] : List (List Int)).getD 0 [])
      ∧ ((List.range blkC7.mlp_shards.length).map
          (fun k2 => (blkC7.mlp_shards.getD k2 default_shard).apply
            ((blkC7.post_attention_layernorm
              (List.zipWith tensorAdd [[1]]
                (blkC7.self_attn 0 (blkC7.input_layernorm [[1]]) [()] [()]
                  [[0, 1]]))).getD k2 []))).getD 0 []
        = (blkC7.mlp_shards.getD 0 default_shard).apply
            ((blkC7.post_attention_layernorm
              (List.zipWith tensorAdd [[1]]
                (blkC7.self_attn 0 (blkC7.input_layernorm [[1]]) [()] [()]
                  [[0, 1]]))).getD 0 [])) :=
  ⟨rfl, rfl, rfl, rfl, rfl, rfl,
    c7_block_call_sequence blkC7 0 [[1]] [()] [()] [[0, 1]] 1 0 [[4]] [[2]]
      rfl rfl rfl rfl rfl rfl (by decide)⟩

theorem run_layers_from_flag {R B K W : Type} [Add R]
    (layers : List (Layer R B K W)) (groups : List (List Nat)) :
    ∀ (fuel idx : Nat) (h : List (List R)) (sb : List B) (kv : List K)
      (iro : List (List Int)),
      run_layers_from layers groups true idx fuel h sb kv iro
        = run_layers_from layers groups false idx fuel h sb kv iro := by
  intro fuel
  induction fuel with
  | zero => intro idx h sb kv iro; rfl
  | succ fuel2 ih =>
    intro idx h sb kv iro
    have htrue : run_layers_from layers groups true idx (fuel2 + 1) h sb kv iro
        = (match groups.find? (fun (g : List Nat) => g.contains idx) with
           | some _ => subgraph_invoke layers idx h sb kv iro
           | none => (layers.getD idx default).call idx h sb kv iro).bind
          (fun h2 =>
            run_layers_from layers groups true (idx + 1) fuel2 h2 sb kv iro) :=
      rfl
    have hfalse : run_layers_from layers groups false idx (fuel2 + 1) h sb kv iro
        = ((layers.getD idx default).call idx h sb kv iro).bind
          (fun h2 =>
            run_layers_from layers groups false (idx + 1) fuel2 h2 sb kv iro) :=
      rfl
    rw [htrue, hfalse]
    cases groups.find? (fun g => g.contains idx) with
    | some g =>
      show ((layers.getD idx default).call idx h sb kv iro).bind
          (fun h2 =>
            run_layers_from layers groups true (idx + 1) fuel2 h2 sb kv iro)
        = ((layers.getD idx default).call idx h sb kv iro).bind
          (fun h2 =>
            run_layers_from layers groups false (idx + 1) fuel2 h2 sb kv iro)
      cases (layers.getD idx default).call idx h sb kv iro with
      | error e => rfl
      | ok h2 => exact ih (idx + 1) h2 sb kv iro
    | none =>
      show ((layers.getD idx default).call idx h sb kv iro).bind
          (fun h2 =>
            run_layers_from layers groups true (idx + 1) fuel2 h2 sb kv iro)
        = ((layers.getD idx default).call idx h sb kv iro).bind
          (fun h2 =>
            run_layers_from layers groups false (idx + 1) fuel2 h2 sb kv iro)
      cases (layers.getD idx default).call idx h sb kv iro with
      | error e => rfl
      | ok h2 => exact ih (idx + 1) h2 sb kv iro

/-- C8: when the subgraph checks pass, a forward call with
`use_subgraphs = true` produces output identical to the call with
`use_subgraphs = false` on the same weights, devices and inputs. -/
theorem c8_subgraph_mode_output_identical {R B K KIn T P W : Type} [Add R]
    [Inhabited R]
    (m : DistributedTransformer R B K KIn T P W) (castF : List R → List R)
    (tokens : T) (signal_buffers : List B) (kv_cache_inputs_per_dev : List KIn)
    (return_n_logits : List Int) (input_row_offsets : List Int)
    (hgate : (mapME (build_subgraph_check m.layers)
      m.subgraph_layer_groups).isOk = true) :
    ({ m with use_subgraphs := true } :
        DistributedTransformer R B K KIn T P W).call castF tokens
        signal_buffers kv_cache_inputs_per_dev return_n_logits
        input_row_offsets
      = ({ m with use_subgraphs := false } :
        DistributedTransformer R B K KIn T P W).call castF tokens
        signal_buffers kv_cache_inputs_per_dev return_n_logits
        input_row_offsets := by
  cases hg : mapME (build_subgraph_check m.layers) m.subgraph_layer_groups with
  | error e => rw [hg] at hgate; exact Bool.noConfusion hgate
  | ok ys =>
    have h1 : ({ m with use_subgraphs := true } :
        DistributedTransformer R B K KIn T P W).call castF tokens
        signal_buffers kv_cache_inputs_per_dev return_n_logits
        input_row_offsets
        = ((mapME (build_subgraph_check m.layers)
            m.subgraph_layer_groups).bind
          (fun _subgraphs => run_layers_from m.layers m.subgraph_layer_groups
            true 0 m.layers.length (m.embed_tokens tokens signal_buffers)
            signal_buffers
            (kv_cache_inputs_per_dev.map m.kv_collection_constructor)
            (distribute_value input_row_offsets m.devices))).bind
          (fun hF => Except.ok (m.extract_logits castF hF signal_buffers
            return_n_logits input_row_offsets)) := rfl
    have h2 : ({ m with use_subgraphs := false } :
        DistributedTransformer R B K KIn T P W).call castF tokens
        signal_buffers kv_cache_inputs_per_dev return_n_logits
        input_row_offsets
        = (run_layers_from m.layers m.subgraph_layer_groups false 0
            m.layers.length (m.embed_tokens tokens signal_buffers)
            signal_buffers
            (kv_cache_inputs_per_dev.map m.kv_collection_constructor)
            (distribute_value input_row_offsets m.devices)).bind
          (fun hF => Except.ok (m.extract_logits castF hF signal_buffers
            return_n_logits input_row_offsets)) := rfl
    rw [h1, h2, hg, run_layers_from_flag]
    rfl

/-- C8 witness: the concrete one-layer valid-group model gives identical
output with the flag on and off. -/
theorem c8_subgraph_mode_output_identical_witness :
    (mapME (build_subgraph_check mC8.layers)
      mC8.subgraph_layer_groups).isOk = true
    ∧ ({ mC8 with use_subgraphs := true } :
        DistributedTransformer Int Unit Unit Unit Unit Unit Unit).call
        (fun l => l) () [] [] [2] [0, 2]
      = ({ mC8 with use_subgraphs := false } :
        DistributedTransformer Int Unit Unit Unit Unit Unit Unit).call
        (fun l => l) () [] [] [2] [0, 2] :=
  ⟨rfl,
    c8_subgraph_mode_output_identical mC8 (fun l => l) () [] [] [2] [0, 2]
      rfl⟩

theorem addVec_mlp_split (c : Nat) (W1 W2 : List (List Int)) (x : List Int) :
    addVec (mlpApply (W1.take c) (W2.map (fun r => r.take c)) x)
      (mlpApply (W1.drop c) (W2.map (fun r => r.drop c)) x)
      = mlpApply W1 W2 x := by
  unfold addVec mlpApply matVec
  simp only [List.map_map]
  rw [zipWith_map_same]
  refine List.map_congr_left (fun r _ => ?_)
  simp only [Function.comp]
  rw [List.map_take, List.map_drop]
  exact (dot_split r _ c).symm

/-- C9: for every sharding factor `N >= 1` (chunk sizes `cs` covering the
hidden dimension), reducing the per-device partial outputs of the
tensor-parallel MLP shards equals the unsharded MLP applied to the same
input (exact integer arithmetic, so tolerance is equality). -/
theorem c9_shard_reduce_equals_unsharded (cs : List Nat)
    (W1 W2 : List (List Int)) (x : List Int) (hN : 0 < cs.length)
    (hcover : W1.length ≤ cs.sum) :
    reduce_partials (shard_outputs cs W1 W2 x) = mlpApply W1 W2 x := by
  induction cs generalizing W1 W2 with
  | nil => simp at hN
  | cons c cs ih =>
    cases cs with
    | nil =>
      show reduce_partials [mlpApply (W1.take c) (W2.map (fun r => r.take c)) x]
        = mlpApply W1 W2 x
      have hc : W1.length ≤ c := by simpa using hcover
      have hW1 : W1.take c = W1 := List.take_of_length_le hc
      show mlpApply (W1.take c) (W2.map (fun r => r.take c)) x
        = mlpApply W1 W2 x
      rw [hW1]
      unfold mlpApply matVec
      rw [List.map_map]
      refine List.map_congr_left (fun r _ => ?_)
      simp only [Function.comp]
      unfold dot
      rw [zipWith_take_of_le _ r _ c (by simpa using hc)]
    | cons c2 cs2 =>
      have hne : shard_outputs (c2 :: cs2) (W1.drop c)
          (W2.map (fun r => r.drop c)) x ≠ [] := by
        simp [shard_outputs]
      rw [show shard_outputs (c :: c2 :: cs2) W1 W2 x
          = mlpApply (W1.take c) (W2.map (fun r => r.take c)) x ::
            shard_outputs (c2 :: cs2) (W1.drop c)
              (W2.map (fun r => r.drop c)) x from rfl]
      rw [reduce_partials_cons _ _ hne]
      rw [ih (W1.drop c) (W2.map (fun r => r.drop c)) (by simp)
        (by rw [List.length_drop]; simp only [List.sum_cons] at hcover ⊢; omega)]
      exact addVec_mlp_split c W1 W2 x

/-- C9 witness: two shards of a 2-hidden-unit MLP reduce to the unsharded
output. -/
theorem c9_shard_reduce_equals_unsharded_witness :
    0 < ([1, 1] : List Nat).length
    ∧ ([[1], [2]] : List (List Int)).length ≤ ([1, 1] : List Nat).sum
    ∧ reduce_partials (shard_outputs [1, 1] [[1], [2]] [[3, 4]] [5])
      = mlpApply [[1], [2]] [[3, 4]] [5] :=
  ⟨by decide, by decide,
    c9_shard_reduce_equals_unsharded [1, 1] [[1], [2]] [[3, 4]] [5]
      (by decide) (by decide)⟩
